import Mathlib

/-!
Shallow embedding of `pkg/transport/tcp/tcp.go` (package `tcp`), the network
layer for inter-node communications of casbin-mesh.

Modelling conventions:
* OS and TLS library calls (`net.Listen`, `tls.LoadX509KeyPair`, `Accept`,
  `Dial`, TLS handshakes, `Close`) are fallible external operations; their
  outcomes are supplied by an `Env` record of oracles.
* The set of OS sockets currently bound is tracked in a `World` value, so
  that resource-leak properties are statable: `net.Listen` adds the bind
  address on success, closing a listener removes it.
* Go methods with pointer receiver `(t *Transport)` are modelled as
  functions returning the transport state after the call (the source never
  mutates any field except `Open` assigning `t.ln`, which the returned
  transport reflects).
* Go interface values that may be `nil` (`net.Listener` in field `ln`)
  become `Option`; calling a method on a `nil` interface value is a Go
  runtime panic, modelled as the distinguished `AcceptResult.crash` outcome.
* Go `error` results become `Except NetError`, with the `NetError`
  constructor recording which external operation produced the error
  (in Go these are distinct error values from distinct library calls).
* `time.Duration` is Go `int64`, modelled as `Int`.
-/

/-- `type Addr struct { Hostname string }` -/
structure Addr where
  Hostname : String
deriving DecidableEq, Repr

/-- `func (addr Addr) Network() string { return "tcp" }` -/
def Addr.Network (_ : Addr) : String := "tcp"

/-- `func (addr Addr) String() string { return addr.Hostname }` -/
def Addr.String (addr : Addr) : String := addr.Hostname

/-- A certificate/key pair as returned by `tls.LoadX509KeyPair`, identified
by the paths it was loaded from. -/
structure Certificate where
  certFile : String
  keyFile : String
deriving DecidableEq, Repr

/-- Go `tls.ClientAuthType`; the zero value of `tls.Config.ClientAuth`
is `NoClientCert`. -/
inductive ClientAuthType where
  | noClientCert
  | requestClientCert
  | requireAnyClientCert
  | verifyClientCertIfGiven
  | requireAndVerifyClientCert
deriving DecidableEq, Repr

/-- The fields of Go `tls.Config` that this package touches, with Go zero
values as defaults (`tls.Config{}`). -/
structure TLSConfig where
  certificates : List Certificate := []
  clientAuth : ClientAuthType := ClientAuthType.noClientCert
  insecureSkipVerify : Bool := false
deriving DecidableEq, Repr

/-- Go `net.TCPAddr` as used in `Dial`: an IP (result of `net.ParseIP`,
`none` when unparsable, i.e. Go `nil`) and a port. -/
structure TCPAddr where
  ip : Option String
  port : Nat
deriving DecidableEq, Repr

/-- Go `net.Dialer` as used in `Dial`: a timeout and an optional pinned
local address (`LocalAddr`, zero value `nil`). -/
structure Dialer where
  timeout : Int
  localAddr : Option TCPAddr := none
deriving DecidableEq, Repr

/-- A raw TCP listener as returned by `net.Listen("tcp", addr)`: it is
bound to `addr`. -/
structure NetListener where
  boundAddr : String
deriving DecidableEq, Repr

/-- A `net.Listener` value: either a raw TCP listener or a TLS wrapper
produced by `tls.NewListener(inner, config)`. -/
inductive Listener where
  | raw (ln : NetListener)
  | tls (inner : Listener) (config : TLSConfig)
deriving DecidableEq, Repr

/-- The bind address of the underlying OS socket of a listener. -/
def Listener.baseAddr : Listener → String
  | Listener.raw ln => ln.boundAddr
  | Listener.tls inner _ => inner.baseAddr

/-- A `net.Conn` value: a raw TCP connection (with its optional pinned
local address and the remote address), or a TLS client connection
produced by a handshake under a given config. -/
inductive Conn where
  | tcp (localAddr : Option TCPAddr) (remoteAddr : String)
  | tls (inner : Conn) (conf : TLSConfig)
deriving DecidableEq, Repr

/-- Whether a connection is TLS-wrapped. -/
def Conn.isTLS : Conn → Bool
  | Conn.tls _ _ => true
  | _ => false

/-- Go `error` values, tagged by the external operation that produced
them (distinct library calls return distinct errors). -/
inductive NetError where
  | bindErr (msg : String)
  | certErr (msg : String)
  | acceptErr (msg : String)
  | dialErr (msg : String)
  | handshakeErr (msg : String)
  | closeErr (msg : String)
deriving DecidableEq, Repr

/-- Outcome of `Transport.Accept`: Go returns `(net.Conn, error)`, and a
method call on a `nil` interface value is a runtime panic (`crash`). -/
inductive AcceptResult where
  | ok (c : Conn)
  | err (e : NetError)
  | crash (msg : String)
deriving DecidableEq, Repr

/-- Oracles deciding the outcomes of the external (OS / TLS library)
operations the transport performs. -/
structure Env where
  listenOk : String → Bool
  listenErrMsg : String → String
  loadOk : String → String → Bool
  loadErrMsg : String → String → String
  acceptRes : Listener → Except NetError Conn
  dialOk : String → Bool
  dialErrMsg : String → String
  handshakeOk : String → Bool
  handshakeErrMsg : String → String
  closeRes : Listener → Except NetError Unit
  parseIP : String → Option String

/-- The OS state the transport can affect: the multiset of currently
bound listening addresses. -/
structure World where
  bound : List String
deriving DecidableEq, Repr

/-- `net.Listen("tcp", addr)`: on success returns a listener bound to
`addr` and records the binding in the world; on failure the world is
unchanged. -/
def netListen (env : Env) (addr : String) (w : World) :
    Except NetError NetListener × World :=
  if env.listenOk addr then
    (Except.ok { boundAddr := addr }, { bound := addr :: w.bound })
  else
    (Except.error (NetError.bindErr (env.listenErrMsg addr)), w)

/-- `tls.LoadX509KeyPair(certFile, keyFile)`. -/
def tlsLoadX509KeyPair (env : Env) (certFile keyFile : String) :
    Except NetError Certificate :=
  if env.loadOk certFile keyFile then
    Except.ok { certFile := certFile, keyFile := keyFile }
  else
    Except.error (NetError.certErr (env.loadErrMsg certFile keyFile))

/-- `func createTLSConfig(certFile, keyFile string) (*tls.Config, error)`:
starts from `tls.Config{}` (all zero values), then sets
`Certificates = [loaded pair]`; all other fields keep their zero value. -/
def createTLSConfig (env : Env) (certFile keyFile : String) :
    Except NetError TLSConfig :=
  match tlsLoadX509KeyPair env certFile keyFile with
  | Except.error e => Except.error e
  | Except.ok cert =>
      Except.ok { certificates := [cert],
                  clientAuth := ClientAuthType.noClientCert,
                  insecureSkipVerify := false }

/-- `var CreateTLSConfig = createTLSConfig` (package-level variable). -/
def CreateTLSConfig := createTLSConfig

/-- `type Transport struct { ... }` with Go zero values as defaults. -/
structure Transport where
  ln : Option Listener := none
  advAddr : Addr := { Hostname := "" }
  certFile : String := ""
  certKey : String := ""
  remoteEncrypted : Bool := false
  skipVerify : Bool := false
  srcIP : String := ""
deriving DecidableEq, Repr

/-- `func NewTransport() *Transport { return &Transport{} }` -/
def NewTransport : Transport := {}

/-- `func NewTLSTransport(certFile, keyPath string, skipVerify bool) *Transport` -/
def NewTLSTransport (certFile keyPath : String) (skipVerify : Bool) : Transport :=
  { certFile := certFile
    certKey := keyPath
    remoteEncrypted := true
    skipVerify := skipVerify }

/-- `func NewTransportFromListener(ln net.Listener, remoteEncrypted bool, skipVerify bool, addr string) *Transport` -/
def NewTransportFromListener (ln : Listener) (remoteEncrypted skipVerify : Bool)
    (addr : String) : Transport :=
  { ln := some ln
    remoteEncrypted := remoteEncrypted
    skipVerify := skipVerify
    advAddr := { Hostname := addr } }

/-- `func (t *Transport) Open(addr string) error`.
Returns the error result, the transport state after the call, and the
world after the call.  Mirrors the source exactly: when `createTLSConfig`
fails, `Open` returns the error without closing the raw listener obtained
from `net.Listen`, so the world keeps `addr` bound. -/
def Transport.Open (env : Env) (t : Transport) (addr : String) (w : World) :
    Except NetError Unit × Transport × World :=
  match netListen env addr w with
  | (Except.error e, w1) => (Except.error e, t, w1)
  | (Except.ok ln0, w1) =>
      if t.certFile ≠ "" then
        match createTLSConfig env t.certFile t.certKey with
        | Except.error e => (Except.error e, t, w1)
        | Except.ok config =>
            (Except.ok (), { t with ln := some (Listener.tls (Listener.raw ln0) config) }, w1)
      else
        (Except.ok (), { t with ln := some (Listener.raw ln0) }, w1)

/-- Shape of the network request issued by `Dial`: a TLS client dial with
its config (`tls.DialWithDialer`) or a raw dial (`dialer.Dial`). -/
inductive DialKind where
  | tlsDial (conf : TLSConfig)
  | rawDial
deriving DecidableEq, Repr

/-- Record of the single network request a `Dial` call issues. -/
structure DialCall where
  dialer : Dialer
  network : String
  addr : String
  kind : DialKind
deriving DecidableEq, Repr

/-- `dialer.Dial("tcp", addr)`: a raw TCP connection on success. -/
def dialerDial (env : Env) (d : Dialer) (addr : String) :
    Except NetError Conn :=
  if env.dialOk addr then Except.ok (Conn.tcp d.localAddr addr)
  else Except.error (NetError.dialErr (env.dialErrMsg addr))

/-- `tls.DialWithDialer(dialer, "tcp", addr, conf)`: dial TCP, then run a
TLS client handshake under `conf`. -/
def tlsDialWithDialer (env : Env) (d : Dialer) (addr : String) (conf : TLSConfig) :
    Except NetError Conn :=
  match dialerDial env d addr with
  | Except.error e => Except.error e
  | Except.ok c =>
      if env.handshakeOk addr then Except.ok (Conn.tls c conf)
      else Except.error (NetError.handshakeErr (env.handshakeErrMsg addr))

/-- `func (t *Transport) Dial(addr string, timeout time.Duration) (net.Conn, error)`.
Returns the issued request together with the connection result, and the
transport state after the call (the source writes no field).  The source
also logs "doing a TLS dial" on the encrypted path; logging is not
modelled. -/
def Transport.Dial (env : Env) (t : Transport) (addr : String) (timeout : Int) :
    (DialCall × Except NetError Conn) × Transport :=
  let dialer : Dialer :=
    if t.srcIP ≠ "" then
      { timeout := timeout,
        localAddr := some { ip := env.parseIP t.srcIP, port := 0 } }
    else
      { timeout := timeout }
  if t.remoteEncrypted then
    let conf : TLSConfig := { insecureSkipVerify := t.skipVerify }
    (({ dialer := dialer, network := "tcp", addr := addr, kind := DialKind.tlsDial conf },
      tlsDialWithDialer env dialer addr conf), t)
  else
    (({ dialer := dialer, network := "tcp", addr := addr, kind := DialKind.rawDial },
      dialerDial env dialer addr), t)

/-- `func (t *Transport) Accept() (net.Conn, error)`.
`t.ln` is a `net.Listener` interface value; when it is `nil` (transport
never opened, non-adopting constructor), `t.ln.Accept()` is a method call
on a nil interface value, which panics at runtime — modelled as `crash`.
On an error from the listener the source logs and returns it. -/
def Transport.Accept (env : Env) (t : Transport) : AcceptResult × Transport :=
  (match t.ln with
   | none => AcceptResult.crash "invalid memory address or nil pointer dereference"
   | some l =>
       match env.acceptRes l with
       | Except.ok c => AcceptResult.ok c
       | Except.error e => AcceptResult.err e,
   t)

/-- Closing a listener: the outcome comes from the OS; the underlying
socket's binding is released. -/
def Listener.close (l : Listener) (env : Env) (w : World) :
    Except NetError Unit × World :=
  (env.closeRes l, { bound := w.bound.erase l.baseAddr })

/-- `func (t *Transport) Close() error`: a no-op returning `nil` when
`t.ln` is `nil`, otherwise `t.ln.Close()`. -/
def Transport.Close (env : Env) (t : Transport) (w : World) :
    Except NetError Unit × Transport × World :=
  match t.ln with
  | none => (Except.ok (), t, w)
  | some l =>
      match l.close env w with
      | (r, w1) => (r, t, w1)

/-- `func (t *Transport) Addr() net.Addr { return t.advAddr }` -/
def Transport.Addr (t : Transport) : Addr := t.advAddr

/-! ### Concrete environments used for witnesses and counterexamples -/

/-- An environment in which every external operation succeeds. -/
def envAllOk : Env :=
  { listenOk := fun _ => true
    listenErrMsg := fun _ => ""
    loadOk := fun _ _ => true
    loadErrMsg := fun _ _ => ""
    acceptRes := fun _ => Except.ok (Conn.tcp none "peer")
    dialOk := fun _ => true
    dialErrMsg := fun _ => ""
    handshakeOk := fun _ => true
    handshakeErrMsg := fun _ => ""
    closeRes := fun _ => Except.ok ()
    parseIP := fun _ => none }

/-- An environment in which binding succeeds but the certificate/key pair
does not load (a non-existent certificate path). -/
def envCertFail : Env :=
  { envAllOk with
    loadOk := fun _ _ => false
    loadErrMsg := fun c _ => "open " ++ c ++ ": no such file or directory" }

/-! ### Helper lemmas -/

theorem dialerDial_ok_shape (env : Env) (d : Dialer) (addr : String) (c : Conn)
    (h : dialerDial env d addr = Except.ok c) : c = Conn.tcp d.localAddr addr := by
  unfold dialerDial at h
  split at h
  · exact (Except.ok.injEq _ _).mp h |>.symm
  · exact Except.noConfusion h

theorem tlsDialWithDialer_ok_shape (env : Env) (d : Dialer) (addr : String)
    (conf : TLSConfig) (c : Conn)
    (h : tlsDialWithDialer env d addr conf = Except.ok c) :
    c = Conn.tls (Conn.tcp d.localAddr addr) conf := by
  unfold tlsDialWithDialer at h
  cases hd : dialerDial env d addr with
  | error e => rw [hd] at h; exact Except.noConfusion h
  | ok c0 =>
      rw [hd] at h
      have hc0 := dialerDial_ok_shape env d addr c0 hd
      subst hc0
      dsimp only at h
      by_cases hh : env.handshakeOk addr = true
      · rw [if_pos hh] at h
        exact ((Except.ok.injEq _ _).mp h).symm
      · rw [if_neg hh] at h
        exact Except.noConfusion h

theorem open_preserves_advAddr (env : Env) (t : Transport) (addr : String) (w : World) :
    (Transport.Open env t addr w).2.1.advAddr = t.advAddr := by
  unfold Transport.Open netListen
  by_cases hl : env.listenOk addr = true
  · simp only [hl, if_true]
    by_cases hc : t.certFile = ""
    · simp [hc]
    · simp only [hc, ne_eq, not_false_eq_true, if_true]
      cases createTLSConfig env t.certFile t.certKey <;> simp
  · simp [hl]

theorem accept_preserves_transport (env : Env) (t : Transport) :
    (Transport.Accept env t).2 = t := rfl

theorem dial_preserves_transport (env : Env) (t : Transport) (addr : String)
    (timeout : Int) : (Transport.Dial env t addr timeout).2 = t := by
  unfold Transport.Dial
  cases t.remoteEncrypted <;> simp

theorem close_preserves_advAddr (env : Env) (t : Transport) (w : World) :
    (Transport.Close env t w).2.1.advAddr = t.advAddr := by
  unfold Transport.Close
  cases t.ln with
  | none => rfl
  | some l => rfl

/-! ### Claims -/

/-- Claim C1 (code-bug evidence): with a certificate path that does not
load, `Open` does return a configuration error and leaves the listener
field unchanged, but the raw listener obtained from `net.Listen` is never
closed on this error path, so a socket REMAINS bound to the bind address
after the failed call — contradicting "no socket remains bound". -/
theorem open_cert_failure_leaks_bound_socket :
    (Transport.Open envCertFail (NewTLSTransport "/no/such/cert.pem" "/no/such/key.pem" false)
        "127.0.0.1:4002" { bound := [] }).1 =
      Except.error (NetError.certErr "open /no/such/cert.pem: no such file or directory") ∧
    (Transport.Open envCertFail (NewTLSTransport "/no/such/cert.pem" "/no/such/key.pem" false)
        "127.0.0.1:4002" { bound := [] }).2.1 =
      NewTLSTransport "/no/such/cert.pem" "/no/such/key.pem" false ∧
    (Transport.Open envCertFail (NewTLSTransport "/no/such/cert.pem" "/no/such/key.pem" false)
        "127.0.0.1:4002" { bound := [] }).2.2.bound = ["127.0.0.1:4002"] := by
  refine ⟨?_, ?_, ?_⟩ <;> rfl

/-- Claim C2 (counterexample): `Accept` on a transport built by
`NewTransport` — on which no listener has been opened — does not return an
error value: the call is a method call on a nil interface value and
crashes with a nil-pointer panic. -/
theorem accept_no_listener_counterexample :
    (Transport.Accept envAllOk NewTransport).1 =
      AcceptResult.crash "invalid memory address or nil pointer dereference" := by
  rfl

/-- Claim C2 (amended): for every transport on which no listener has been
opened or adopted, `Accept` neither returns a connection nor an error —
it crashes with a nil-pointer panic. -/
theorem accept_no_listener_crashes (env : Env) (t : Transport) (h : t.ln = none) :
    (Transport.Accept env t).1 =
      AcceptResult.crash "invalid memory address or nil pointer dereference" := by
  unfold Transport.Accept
  rw [h]

theorem accept_no_listener_crashes_witness :
    NewTransport.ln = none ∧
    (Transport.Accept envAllOk NewTransport).1 =
      AcceptResult.crash "invalid memory address or nil pointer dereference" :=
  ⟨rfl, accept_no_listener_crashes envAllOk NewTransport rfl⟩

/-- Claim C3: every `Dial` issues exactly one request: when
`remoteEncrypted` is true a TLS client dial whose config's verification
policy is exactly the transport's `skipVerify` flag, and otherwise a raw
TCP dial; accordingly a successfully returned connection is TLS-wrapped
iff `remoteEncrypted`. -/
theorem dial_encryption_policy (env : Env) (t : Transport) (addr : String)
    (timeout : Int) :
    ((Transport.Dial env t addr timeout).1.1.kind =
      if t.remoteEncrypted then
        DialKind.tlsDial { certificates := [], clientAuth := ClientAuthType.noClientCert,
                           insecureSkipVerify := t.skipVerify }
      else DialKind.rawDial) ∧
    (∀ c, (Transport.Dial env t addr timeout).1.2 = Except.ok c →
      c.isTLS = t.remoteEncrypted) := by
  constructor
  · unfold Transport.Dial
    cases t.remoteEncrypted <;> simp
  · intro c hc
    unfold Transport.Dial at hc
    cases henc : t.remoteEncrypted <;> rw [henc] at hc <;> simp at hc
    · rw [dialerDial_ok_shape _ _ _ _ hc]
      rfl
    · rw [tlsDialWithDialer_ok_shape _ _ _ _ _ hc]
      rfl

theorem dial_encryption_policy_witness :
    (Transport.Dial envAllOk (NewTLSTransport "server.crt" "server.key" true)
        "10.0.0.1:8080" 5).1.2 =
      Except.ok (Conn.tls (Conn.tcp none "10.0.0.1:8080")
        { certificates := [], clientAuth := ClientAuthType.noClientCert,
          insecureSkipVerify := true }) ∧
    Conn.isTLS (Conn.tls (Conn.tcp none "10.0.0.1:8080")
        { certificates := [], clientAuth := ClientAuthType.noClientCert,
          insecureSkipVerify := true }) =
      (NewTLSTransport "server.crt" "server.key" true).remoteEncrypted :=
  ⟨rfl, (dial_encryption_policy envAllOk (NewTLSTransport "server.crt" "server.key" true)
      "10.0.0.1:8080" 5).2 _ rfl⟩

/-- Claim C4: a successful `Open` stores, when a certificate path is
configured, the raw listener wrapped in a TLS listener whose config holds
exactly the single loaded certificate and no client-certificate
requirement; with an empty certificate path the raw listener is stored
unwrapped. -/
theorem open_success_stores_listener (env : Env) (t : Transport) (addr : String)
    (w : World) (h : (Transport.Open env t addr w).1 = Except.ok ()) :
    (t.certFile ≠ "" →
      (Transport.Open env t addr w).2.1.ln =
        some (Listener.tls (Listener.raw { boundAddr := addr })
          { certificates := [{ certFile := t.certFile, keyFile := t.certKey }],
            clientAuth := ClientAuthType.noClientCert,
            insecureSkipVerify := false })) ∧
    (t.certFile = "" →
      (Transport.Open env t addr w).2.1.ln =
        some (Listener.raw { boundAddr := addr })) := by
  unfold Transport.Open netListen at h ⊢
  by_cases hl : env.listenOk addr = true
  · simp only [hl, if_true] at h ⊢
    by_cases hc : t.certFile = ""
    · simp [hc]
    · simp only [hc, ne_eq, not_false_eq_true, if_true] at h ⊢
      unfold createTLSConfig tlsLoadX509KeyPair at h ⊢
      by_cases hk : env.loadOk t.certFile t.certKey = true
      · simp [hk]
      · simp [hk] at h
  · simp [hl] at h

theorem open_success_stores_listener_witness :
    (Transport.Open envAllOk (NewTLSTransport "server.crt" "server.key" false)
        "127.0.0.1:4002" { bound := [] }).1 = Except.ok () ∧
    (Transport.Open envAllOk (NewTLSTransport "server.crt" "server.key" false)
        "127.0.0.1:4002" { bound := [] }).2.1.ln =
      some (Listener.tls (Listener.raw { boundAddr := "127.0.0.1:4002" })
        { certificates := [{ certFile := "server.crt", keyFile := "server.key" }],
          clientAuth := ClientAuthType.noClientCert,
          insecureSkipVerify := false }) :=
  ⟨rfl, (open_success_stores_listener envAllOk
      (NewTLSTransport "server.crt" "server.key" false) "127.0.0.1:4002"
      { bound := [] } rfl).1 (by decide)⟩

/-- Claim C5: `Close` on a transport owning no listener returns no error
and changes nothing; on a transport owning a listener it closes that
listener (returning the OS close outcome and unbinding the listener's
socket). -/
theorem close_behaviour (env : Env) (t : Transport) (w : World) :
    (t.ln = none → Transport.Close env t w = (Except.ok (), t, w)) ∧
    (∀ l, t.ln = some l →
      Transport.Close env t w =
        (env.closeRes l, t, { bound := w.bound.erase l.baseAddr })) := by
  constructor
  · intro h
    unfold Transport.Close
    rw [h]
  · intro l h
    unfold Transport.Close
    rw [h]
    rfl

theorem close_behaviour_witness :
    Transport.Close envAllOk NewTransport { bound := ["127.0.0.1:4002"] } =
      (Except.ok (), NewTransport, { bound := ["127.0.0.1:4002"] }) :=
  (close_behaviour envAllOk NewTransport { bound := ["127.0.0.1:4002"] }).1 rfl

/-- Claim C6: the advertised address is immutable after construction:
`Open`, `Accept`, `Dial` and `Close` all preserve it; the plain and TLS
constructors leave it zero and `Open` never populates it, so `Addr()`
returns the zero address even after `Open` on such transports. -/
theorem advAddr_immutable (env : Env) (t : Transport) (addr addr2 c k : String)
    (sv : Bool) (w : World) (timeout : Int) :
    (Transport.Open env t addr w).2.1.advAddr = t.advAddr ∧
    (Transport.Accept env t).2.advAddr = t.advAddr ∧
    (Transport.Dial env t addr2 timeout).2.advAddr = t.advAddr ∧
    (Transport.Close env t w).2.1.advAddr = t.advAddr ∧
    Transport.Addr (Transport.Open env NewTransport addr w).2.1 = { Hostname := "" } ∧
    Transport.Addr (Transport.Open env (NewTLSTransport c k sv) addr w).2.1 =
      { Hostname := "" } := by
  refine ⟨open_preserves_advAddr env t addr w, ?_, ?_, close_preserves_advAddr env t w, ?_, ?_⟩
  · rw [accept_preserves_transport]
  · rw [dial_preserves_transport]
  · show (Transport.Open env NewTransport addr w).2.1.advAddr = { Hostname := "" }
    rw [open_preserves_advAddr]
    rfl
  · show (Transport.Open env (NewTLSTransport c k sv) addr w).2.1.advAddr = { Hostname := "" }
    rw [open_preserves_advAddr]
    rfl

/-- Claim C7: the three constructors are pure and total — they consume no
environment or world, cannot fail, and return a transport whose fields
are exactly the supplied configuration (every other field at its Go zero
value). -/
theorem constructors_pure_total (c k a : String) (sv re : Bool) (l : Listener) :
    NewTransport =
      { ln := none, advAddr := { Hostname := "" }, certFile := "", certKey := "",
        remoteEncrypted := false, skipVerify := false, srcIP := "" } ∧
    NewTLSTransport c k sv =
      { ln := none, advAddr := { Hostname := "" }, certFile := c, certKey := k,
        remoteEncrypted := true, skipVerify := sv, srcIP := "" } ∧
    NewTransportFromListener l re sv a =
      { ln := some l, advAddr := { Hostname := a }, certFile := "", certKey := "",
        remoteEncrypted := re, skipVerify := sv, srcIP := "" } :=
  ⟨rfl, rfl, rfl⟩

/-- Claim C8: `Addr` returns exactly the advertised address recorded at
construction, with no environment access and no failure mode; the
returned address reports network kind "tcp" and renders as the advertised
hostname string. -/
theorem addr_accessor (t : Transport) (l : Listener) (re sv : Bool) (a : String) :
    Transport.Addr t = t.advAddr ∧
    Transport.Addr (NewTransportFromListener l re sv a) = { Hostname := a } ∧
    Addr.Network (Transport.Addr t) = "tcp" ∧
    Addr.String (Transport.Addr t) = t.advAddr.Hostname :=
  ⟨rfl, rfl, rfl, rfl⟩

/-- Claim C9: all three constructors leave `srcIP` empty, so the
source-address-pinning branch of `Dial` is unreachable through the public
construction interface: every dial issued by such a transport carries no
pinned local address (the OS chooses the local endpoint). -/
theorem constructors_no_source_pinning (env : Env) (c k a addr : String)
    (sv re : Bool) (l : Listener) (timeout : Int) :
    NewTransport.srcIP = "" ∧
    (NewTLSTransport c k sv).srcIP = "" ∧
    (NewTransportFromListener l re sv a).srcIP = "" ∧
    (Transport.Dial env NewTransport addr timeout).1.1.dialer =
      { timeout := timeout, localAddr := none } ∧
    (Transport.Dial env (NewTLSTransport c k sv) addr timeout).1.1.dialer =
      { timeout := timeout, localAddr := none } ∧
    (Transport.Dial env (NewTransportFromListener l re sv a) addr timeout).1.1.dialer =
      { timeout := timeout, localAddr := none } := by
  refine ⟨rfl, rfl, rfl, rfl, rfl, ?_⟩
  unfold Transport.Dial
  cases re <;> rfl

/-- Claim C10: `NewTLSTransport` sets `remoteEncrypted` to true
unconditionally, so every dial by a TLS-constructed transport issues a
TLS client dial with the constructor's skip-verify policy: listener
encryption forces dial encryption through this constructor. -/
theorem tls_constructor_forces_tls_dials (env : Env) (c k addr : String)
    (sv : Bool) (timeout : Int) :
    (NewTLSTransport c k sv).remoteEncrypted = true ∧
    (Transport.Dial env (NewTLSTransport c k sv) addr timeout).1.1.kind =
      DialKind.tlsDial { certificates := [], clientAuth := ClientAuthType.noClientCert,
                         insecureSkipVerify := sv } :=
  ⟨rfl, rfl⟩
